import Mathlib

/-!
Verification of the AcmeSHBackend of serles-acme
(src/serles/backends/acmesh.py) via a shallow embedding.

Python strings are modelled by Lean String (a structure wrapping a
List Char in this toolchain); the character-level helpers below
reimplement the CPython semantics of str.strip, str.splitlines and
str.partition used by the source. Python dicts over strings are
modelled as association lists without duplicate keys, with the
update-in-place-or-append semantics of dict assignment. Filesystem
state and the child-process outcome are passed in explicitly; code
that can raise returns Except.
-/

namespace AcmeSH

/-- Python dict from str to str, as an insertion-ordered association list. -/
abbrev Dict := List (String × String)

/-- Whitespace characters stripped by Python str.strip with no arguments. -/
def isWS (c : Char) : Bool :=
  c == ' ' || c == '\t' || c == '\n' || c == '\r' || c.val == 11 || c.val == 12

/-- Python str.strip on the character list: drop whitespace from both ends. -/
def stripChars (l : List Char) : List Char :=
  ((l.dropWhile isWS).reverse.dropWhile isWS).reverse

/-- Python str.strip. -/
def pyStrip (s : String) : String := ⟨stripChars s.data⟩

/-- Line-boundary characters recognised by Python str.splitlines. -/
def isLineBreak (c : Char) : Bool :=
  c == '\n' || c == '\r' || c.val == 11 || c.val == 12 || c.val == 28 ||
    c.val == 29 || c.val == 30 || c.val == 133 || c.val == 8232 || c.val == 8233

/-- Helper for str.splitlines: a terminator ends the current line; the CRLF
pair counts as one terminator; a final unterminated segment is kept only if
non-empty. -/
def splitlinesAux : List Char → List Char → List (List Char)
  | [], acc => if acc.isEmpty then [] else [acc.reverse]
  | '\r' :: '\n' :: rest, acc => acc.reverse :: splitlinesAux rest []
  | c :: rest, acc =>
    if isLineBreak c then acc.reverse :: splitlinesAux rest []
    else splitlinesAux rest (c :: acc)

/-- Python str.splitlines. -/
def pySplitlines (s : String) : List String :=
  (splitlinesAux s.data []).map String.mk

/-- Python str.partition at the separator, character level: returns the part
before the first separator occurrence, the separator (empty if absent), and
the part after; when the separator is absent the whole input is the first
component, as in CPython. -/
def partitionChars (sep : Char) : List Char → List Char × List Char × List Char
  | [] => ([], [], [])
  | c :: rest =>
    if c == sep then ([], [sep], rest)
    else
      let (a, s, b) := partitionChars sep rest
      (c :: a, s, b)

/-- The lines the translator iterates over:
config_str.strip().splitlines(). -/
def pyLines (config_str : String) : List String :=
  pySplitlines (pyStrip config_str)

/-- key, _, value = line.strip().partition("="); key.strip() — the key the
source assigns for a given raw line. -/
def lineKey (l : String) : String :=
  ⟨stripChars (partitionChars '=' (stripChars l.data)).1⟩

/-- key, _, value = line.strip().partition("="); value.strip() — the value the
source assigns for a given raw line. -/
def lineVal (l : String) : String :=
  ⟨stripChars (partitionChars '=' (stripChars l.data)).2.2⟩

/-- Python dict assignment config_dict[key] = value: replace the value at the
first (unique) occurrence of the key, keeping its position, else append. -/
def dictInsert : Dict → String → String → Dict
  | [], k, v => [(k, v)]
  | (a, b) :: t, k, v =>
    if a = k then (k, v) :: t else (a, b) :: dictInsert t k v

/-- Python dict lookup d.get(k). -/
def dictLookup : Dict → String → Option String
  | [], _ => none
  | (a, b) :: t, k => if a = k then some b else dictLookup t k

/-- The translator loop body of _parse_dns_plugin_config, over an already
split list of raw lines. The source strips each line, builds (but never
raises) a RuntimeError for blank or separator-free lines, partitions at the
first "=", strips key and value, and assigns into the dict; since the
RuntimeError is discarded, every line — blank and malformed ones included —
reaches the assignment. -/
def parseLines : List String → Dict → Dict
  | [], d => d
  | l :: ls, d => parseLines ls (dictInsert d (lineKey l) (lineVal l))

/-- AcmeSHBackend._parse_dns_plugin_config: translate the credential block
into the environment dict handed to subprocess.run. Total: the malformed-line
RuntimeError in the source is constructed but never raised, so no input
fails. -/
def _parse_dns_plugin_config (config_str : String) : Dict :=
  parseLines (pyLines config_str) []

/-- A line of the credential block that is well formed in the sense of the
spec: non-blank after stripping and containing the separator "=". -/
def wellFormedLine (l : String) : Bool :=
  !(stripChars l.data).isEmpty && (stripChars l.data).contains '='

/-- The value of the last line in the list whose assigned key is k — the
reference function for last-occurrence-wins. -/
def lastVal : List String → String → Option String
  | [], _ => none
  | l :: ls, k =>
    match lastVal ls k with
    | some v => some v
    | none => if lineKey l = k then some (lineVal l) else none

/-- A Python value as it can appear in the backend fields and in the argument
list handed to subprocess.run: configparser lookups give strings, the
defaulted fields are the int 300 and the bool False. -/
inductive PyVal where
  | str : String → PyVal
  | int : Int → PyVal
  | bool : Bool → PyVal
deriving DecidableEq, Repr

/-- Python truthiness of the values above, as used by
if not self.dns_plugin and if self.debug_mode. -/
def pyTruthy : PyVal → Bool
  | .str s => !s.isEmpty
  | .int n => n != 0
  | .bool b => b

/-- true exactly for arguments subprocess.run accepts in the argv list;
a non-string entry makes subprocess.run raise TypeError. -/
def isStrArg : PyVal → Bool
  | .str _ => true
  | _ => false

/-- One configuration section: the key/value settings of config.ini, as
configparser hands them to the backend (all values are strings). -/
abbrev ConfigSection := List (String × String)

/-- The whole configuration mapping, section name to section. -/
abbrev Config := List (String × ConfigSection)

/-- Section lookup, config["acmesh"] together with the "acmesh" in config
membership test (none means absent). -/
def lookupSect : Config → String → Option ConfigSection
  | [], _ => none
  | (n, s) :: t, name => if n = name then some s else lookupSect t name

/-- Setting lookup with optional default, config[section].get(key, default)
via Option. -/
def sectGet : ConfigSection → String → Option String
  | [], _ => none
  | (k, v) :: t, key => if k = key then some v else sectGet t key

/-- The read-only filesystem checks __init__ performs: os.access(p, X_OK)
and os.path.exists(p). -/
structure FileSystem where
  executable : String → Bool
  pathExists : String → Bool

/-- The validated backend state set up by AcmeSHBackend.__init__. -/
structure AcmeSHBackend where
  acmesh_binary_path : String
  acmesh_home_path : String
  dns_plugin : String
  dns_plugin_config : String
  dns_sleep_time : PyVal
  debug_mode : PyVal
deriving DecidableEq, Repr

/-- The resolved binary path: config["acmesh"].get("acmesh_binary_path",
"/root/.acme.sh/acme.sh"). -/
def binaryPath (sect : ConfigSection) : String :=
  (sectGet sect "acmesh_binary_path").getD "/root/.acme.sh/acme.sh"

/-- The resolved home path: config["acmesh"].get("acmesh_home_path",
"/root/.acme.sh"). -/
def homePath (sect : ConfigSection) : String :=
  (sectGet sect "acmesh_home_path").getD "/root/.acme.sh"

/-- AcmeSHBackend.__init__: validates the configuration and produces the
backend, or raises (Except.error carries the exception message; the quote
characters of the source messages are elided). A value absent from the
section and the empty string are conflated by the getD "" reads exactly
where the source tests Python falsiness (if not self.dns_plugin). When
present, dns_sleep_time and debug_mode are configparser strings; when
absent they default to the Python int 300 and bool False without any
coercion. -/
def AcmeSHBackend.init (fs : FileSystem) (config : Config) :
    Except String AcmeSHBackend :=
  match lookupSect config "acmesh" with
  | none => .error "acmesh section missing from config.ini"
  | some sect =>
    if fs.executable (binaryPath sect) = false then
      .error ("ACME.sh " ++ binaryPath sect ++ " not executable")
    else if fs.pathExists (homePath sect) = false then
      .error ("ACME.sh home path " ++ homePath sect ++ " does not exist.")
    else if (sectGet sect "dns_plugin").getD "" = "" then
      .error "Please specify a dns_plugin in acmesh section of config.ini"
    else if (sectGet sect "dns_plugin_config").getD "" = "" then
      .error "Please specify a dns_plugin_config in acmesh section of config.ini"
    else
      .ok
        { acmesh_binary_path := binaryPath sect
          acmesh_home_path := homePath sect
          dns_plugin := (sectGet sect "dns_plugin").getD ""
          dns_plugin_config := (sectGet sect "dns_plugin_config").getD ""
          dns_sleep_time :=
            match sectGet sect "dns_sleep_time" with
            | some v => PyVal.str v
            | none => PyVal.int 300
          debug_mode :=
            match sectGet sect "debug_mode" with
            | some v => PyVal.str v
            | none => PyVal.bool false }

/-- Whether an Except value is a successful result (construction did not
raise). -/
def exceptIsOk : Except String AcmeSHBackend → Bool
  | .ok _ => true
  | .error _ => false

/-- The certificate output path computed by sign:
f-string home/certificates/subjectAltNames[0].pem. -/
def fullchainPath (b : AcmeSHBackend) (san0 : String) : String :=
  b.acmesh_home_path ++ "/certificates/" ++ san0 ++ ".pem"

/-- The argv list sign builds for subprocess.run. Note that
self.dns_sleep_time is placed in the list as-is, without str() coercion. -/
def signCmd (b : AcmeSHBackend) (csr_file fullchain_file : String) :
    List PyVal :=
  [PyVal.str b.acmesh_binary_path,
   PyVal.str "--sign-csr",
   PyVal.str "--csr", PyVal.str csr_file,
   PyVal.str "--dns", PyVal.str b.dns_plugin,
   PyVal.str "--fullchain-file", PyVal.str fullchain_file,
   PyVal.str "--home", PyVal.str b.acmesh_home_path,
   PyVal.str "--dnssleep", b.dns_sleep_time]
  ++ (if pyTruthy b.debug_mode then [PyVal.str "--debug"] else [])

/-- The data subprocess.run is invoked with. -/
structure Invocation where
  cmd : List PyVal
  env : Dict
  timeout : Nat
deriving DecidableEq, Repr

/-- The subprocess.run call sign makes: the keyword argument env is exactly
the dict returned by _parse_dns_plugin_config, which makes the child run
with that dict as its entire environment; the inherited base process
environment (the _baseEnv parameter) is not consulted anywhere, and
timeout is the fixed 900. -/
def signInvocation (b : AcmeSHBackend) (_baseEnv : Dict)
    (csr_file fullchain_file : String) : Invocation :=
  { cmd := signCmd b csr_file fullchain_file
    env := _parse_dns_plugin_config b.dns_plugin_config
    timeout := 900 }

/-- Modelled from the spec: the environment the spec requires for the child
process — the translated credential entries merged over (added to) the
inherited base process environment. -/
def mergedEnvSpec (base extra : Dict) : Dict :=
  extra.foldl (fun d p => dictInsert d p.1 p.2) base

/-- The exceptions sign can raise in the modelled fragment. -/
inductive PyExc where
  | typeError : String → PyExc
  | indexError : String → PyExc
  | fileNotFound : String → PyExc
deriving DecidableEq, Repr

/-- The outcome of the child process: returncode, and the captured combined
stdout+stderr already decoded. -/
structure ProcResult where
  returncode : Int
  output : String
deriving DecidableEq, Repr

/-- The ambient state a signing call runs against: the temporary directory
name handed out by tempfile, the inherited process environment, the
readable files, and the child-process outcome. -/
structure World where
  tmpdir : String
  baseEnv : Dict
  files : List (String × String)
  proc : ProcResult
deriving DecidableEq, Repr

/-- open(path).read(): the contents at path, none when opening raises
FileNotFoundError. -/
def fsRead : List (String × String) → String → Option String
  | [], _ => none
  | (p, c) :: t, path => if p = path then some c else fsRead t path

/-- The final read-and-return step of sign: open(fullchain_file) raises
FileNotFoundError when the file is absent, else the full contents are
returned with no error. -/
def readFullchain (w : World) (path : String) :
    Except PyExc (Option String × Option String) :=
  match fsRead w.files path with
  | none => .error (PyExc.fileNotFound path)
  | some contents => .ok (some contents, none)

/-- AcmeSHBackend.sign. The CSR write, the makedirs call and the directory
cleanup are filesystem side effects with no bearing on the returned value
and are not modelled; subjectDN and email are accepted and ignored exactly
as in the source. subjectAltNames[0] raises IndexError on an empty list.
subprocess.run raises TypeError when the argv list holds a non-string (the
uncoerced dns_sleep_time default). The env and timeout keyword arguments of
the subprocess.run call are modelled by signInvocation. The returncode
dispatch mirrors the source: 2 falls through to the certificate read, any
other non-zero code returns the error pair, 0 falls through to the read. -/
def sign (b : AcmeSHBackend) (w : World) (csr : String) (subjectDN : String)
    (subjectAltNames : List String) (email : String) :
    Except PyExc (Option String × Option String) :=
  match subjectAltNames with
  | [] => .error (PyExc.indexError "list index out of range")
  | san0 :: _ =>
    if (signCmd b (w.tmpdir ++ "/csr.pem") (fullchainPath b san0)).all isStrArg
        = false then
      .error (PyExc.typeError "expected str, bytes or os.PathLike object, not int")
    else if w.proc.returncode = 2 then
      readFullchain w (fullchainPath b san0)
    else if w.proc.returncode ≠ 0 then
      .ok (none, some ("acme.sh exited with error " ++
        toString w.proc.returncode ++ " and output:\n" ++ w.proc.output))
    else
      readFullchain w (fullchainPath b san0)

/-- s contains pat as a contiguous substring. -/
def strContains (s pat : String) : Prop :=
  ∃ pre post, s = pre ++ pat ++ post

/-- A concrete backend for exercising the environment handed to the child
process. -/
def b2 : AcmeSHBackend :=
  { acmesh_binary_path := "/root/.acme.sh/acme.sh"
    acmesh_home_path := "/root/.acme.sh"
    dns_plugin := "dns_pdns"
    dns_plugin_config := "pdns_token = x"
    dns_sleep_time := PyVal.str "300"
    debug_mode := PyVal.bool false }

/-- A concrete inherited process environment holding the standard entries. -/
def baseEnv2 : Dict := [("PATH", "/usr/bin:/bin"), ("HOME", "/root")]

/-- A concrete backend for the already-issued (exit code 2) scenario. -/
def b6 : AcmeSHBackend :=
  { acmesh_binary_path := "/root/.acme.sh/acme.sh"
    acmesh_home_path := "/root/.acme.sh"
    dns_plugin := "dns_pdns"
    dns_plugin_config := "pdns_token = x"
    dns_sleep_time := PyVal.str "300"
    debug_mode := PyVal.bool false }

/-- A concrete world in which the child exits with code 2 and the expected
certificate file exists. -/
def w6 : World :=
  { tmpdir := "/tmp/serles-acmeshabc"
    baseEnv := []
    files := [("/root/.acme.sh/certificates/example.com.pem", "PEMDATA")]
    proc := { returncode := 2, output := "cert already issued" } }

/-- A concrete backend for the failing-exit-code scenario. -/
def b7 : AcmeSHBackend :=
  { acmesh_binary_path := "/root/.acme.sh/acme.sh"
    acmesh_home_path := "/root/.acme.sh"
    dns_plugin := "dns_pdns"
    dns_plugin_config := "pdns_token = x"
    dns_sleep_time := PyVal.str "300"
    debug_mode := PyVal.bool false }

/-- A concrete world in which the child exits with code 5 and the captured
output reports a missing DNS record. -/
def w7 : World :=
  { tmpdir := "/tmp/serles-acmeshdef"
    baseEnv := []
    files := []
    proc := { returncode := 5, output := "DNS record not found" } }

/-- A filesystem on which every path is executable and existing, so backend
construction only depends on the configuration contents. -/
def fs9 : FileSystem :=
  { executable := fun _ => true, pathExists := fun _ => true }

/-- A configuration whose acmesh section omits dns_sleep_time and
debug_mode, so both defaults apply. -/
def config9 : Config :=
  [("acmesh", [("dns_plugin", "dns_pdns"), ("dns_plugin_config", "pdns_token = x")])]

/-- The backend that AcmeSHBackend.init builds from config9: all defaults,
with the uncoerced int 300 and bool False. -/
def b9 : AcmeSHBackend :=
  { acmesh_binary_path := "/root/.acme.sh/acme.sh"
    acmesh_home_path := "/root/.acme.sh"
    dns_plugin := "dns_pdns"
    dns_plugin_config := "pdns_token = x"
    dns_sleep_time := PyVal.int 300
    debug_mode := PyVal.bool false }

/-- A concrete world for a signing call on the defaulted backend. -/
def w9 : World :=
  { tmpdir := "/tmp/serles-acmeshghi"
    baseEnv := []
    files := []
    proc := { returncode := 0, output := "" } }

/-- A concrete backend for the missing-certificate-file scenario. -/
def b10 : AcmeSHBackend :=
  { acmesh_binary_path := "/root/.acme.sh/acme.sh"
    acmesh_home_path := "/root/.acme.sh"
    dns_plugin := "dns_pdns"
    dns_plugin_config := "pdns_token = x"
    dns_sleep_time := PyVal.str "300"
    debug_mode := PyVal.bool false }

/-- A concrete world in which the child exits with code 0 but no certificate
file was produced. -/
def w10 : World :=
  { tmpdir := "/tmp/serles-acmeshjkl"
    baseEnv := []
    files := []
    proc := { returncode := 0, output := "done" } }

theorem strAppend_assoc (a b c : String) : a ++ b ++ c = a ++ (b ++ c) := by
  cases a
  cases b
  cases c
  exact congrArg String.mk (List.append_assoc _ _ _)

theorem strAppend_empty (a : String) : a ++ "" = a := by
  cases a
  exact congrArg String.mk (List.append_nil _)

theorem dictLookup_insert (d : Dict) (k v k' : String) :
    dictLookup (dictInsert d k v) k' =
      if k' = k then some v else dictLookup d k' := by
  induction d with
  | nil =>
    simp only [dictInsert, dictLookup]
    by_cases h : k = k'
    · rw [if_pos h, if_pos h.symm]
    · have h' : ¬ k' = k := fun e => h (Eq.symm e)
      rw [if_neg h, if_neg h']
  | cons a t ih =>
    obtain ⟨x, y⟩ := a
    simp only [dictInsert]
    by_cases hxk : x = k
    · rw [if_pos hxk]
      simp only [dictLookup]
      by_cases h : k = k'
      · rw [if_pos h, if_pos h.symm]
      · have h' : ¬ k' = k := fun e => h (Eq.symm e)
        rw [if_neg h, if_neg h', if_neg (hxk ▸ h)]
    · rw [if_neg hxk]
      simp only [dictLookup, ih]
      by_cases hxk' : x = k'
      · have hk'k : ¬ k' = k := fun e => hxk (hxk'.trans e)
        rw [if_pos hxk', if_neg hk'k, if_pos hxk']
      · rw [if_neg hxk']
        by_cases hk : k' = k
        · rw [if_pos hk, if_pos hk]
        · rw [if_neg hk, if_neg hk, if_neg hxk']

theorem dictKeys_insert (d : Dict) (k v : String) :
    (dictInsert d k v).map Prod.fst =
      if k ∈ d.map Prod.fst then d.map Prod.fst
      else d.map Prod.fst ++ [k] := by
  induction d with
  | nil => simp [dictInsert]
  | cons a t ih =>
    obtain ⟨x, y⟩ := a
    simp only [dictInsert, List.map_cons]
    by_cases hxk : x = k
    · rw [if_pos hxk,
        if_pos (show k ∈ x :: t.map Prod.fst from List.mem_cons.mpr (Or.inl hxk.symm))]
      rw [List.map_cons, hxk]
    · rw [if_neg hxk]
      simp only [List.map_cons, ih]
      by_cases hk : k ∈ t.map Prod.fst
      · rw [if_pos hk,
          if_pos (show k ∈ x :: t.map Prod.fst from List.mem_cons_of_mem _ hk)]
      · have hnx : k ∉ x :: t.map Prod.fst := by
          intro hmem
          rcases List.mem_cons.mp hmem with rfl | h
          · exact hxk rfl
          · exact hk h
        rw [if_neg hk, if_neg hnx]
        simp

theorem dictKeys_nodup_insert (d : Dict) (k v : String)
    (h : (d.map Prod.fst).Nodup) :
    ((dictInsert d k v).map Prod.fst).Nodup := by
  rw [dictKeys_insert]
  by_cases hk : k ∈ d.map Prod.fst
  · simpa [hk] using h
  · simp [hk, List.nodup_append, h]

theorem mem_dictKeys_insert (d : Dict) (k v k' : String) :
    k' ∈ (dictInsert d k v).map Prod.fst ↔
      k' = k ∨ k' ∈ d.map Prod.fst := by
  rw [dictKeys_insert]
  by_cases hk : k ∈ d.map Prod.fst
  · simp only [hk, if_pos]
    constructor
    · exact Or.inr
    · rintro (rfl | h)
      · exact hk
      · exact h
  · simp [hk, or_comm]

theorem parseLines_lookup (ls : List String) (d : Dict) (k : String) :
    dictLookup (parseLines ls d) k =
      match lastVal ls k with
      | some v => some v
      | none => dictLookup d k := by
  induction ls generalizing d with
  | nil => rfl
  | cons l ls ih =>
    simp only [parseLines]
    rw [ih]
    cases hl : lastVal ls k with
    | some v => simp only [lastVal, hl]
    | none =>
      simp only [lastVal, hl, dictLookup_insert]
      by_cases hk : k = lineKey l
      · rw [if_pos hk, if_pos hk.symm]
      · have hk' : ¬ lineKey l = k := fun e => hk (Eq.symm e)
        rw [if_neg hk, if_neg hk']

theorem parseLines_mem_keys (ls : List String) (d : Dict) (k : String) :
    k ∈ (parseLines ls d).map Prod.fst ↔
      (∃ l ∈ ls, lineKey l = k) ∨ k ∈ d.map Prod.fst := by
  induction ls generalizing d with
  | nil => simp [parseLines]
  | cons l ls ih =>
    rw [parseLines, ih, mem_dictKeys_insert]
    constructor
    · rintro (h | rfl | h)
      · obtain ⟨l', hl', rfl⟩ := h
        exact Or.inl ⟨l', List.mem_cons_of_mem _ hl', rfl⟩
      · exact Or.inl ⟨l, List.mem_cons_self _ _, rfl⟩
      · exact Or.inr h
    · rintro (⟨l', hl', rfl⟩ | h)
      · rcases List.mem_cons.mp hl' with rfl | hl''
        · exact Or.inr (Or.inl rfl)
        · exact Or.inl ⟨l', hl'', rfl⟩
      · exact Or.inr (Or.inr h)

theorem parseLines_nodup_keys (ls : List String) (d : Dict)
    (h : (d.map Prod.fst).Nodup) :
    ((parseLines ls d).map Prod.fst).Nodup := by
  induction ls generalizing d with
  | nil => simpa [parseLines] using h
  | cons l ls ih => exact ih _ (dictKeys_nodup_insert _ _ _ h)

theorem signCmd_all_str (b : AcmeSHBackend) (c f : String)
    (h : isStrArg b.dns_sleep_time = true) :
    (signCmd b c f).all isStrArg = true := by
  obtain ⟨sv, hv⟩ : ∃ s, b.dns_sleep_time = PyVal.str s := by
    cases hds : b.dns_sleep_time with
    | str s => exact ⟨s, rfl⟩
    | int n => rw [hds] at h; simp [isStrArg] at h
    | bool b => rw [hds] at h; simp [isStrArg] at h
  cases hd : pyTruthy b.debug_mode <;>
    simp [signCmd, hd, hv, isStrArg]

/-- C1: a credential block line without the separator is silently accepted:
the translator is a total function (the RuntimeError in the source is
constructed but never raised), and the offending line becomes a key with an
empty value, misrepresenting the entry instead of failing. The claim that
translation aborts with a descriptive error is violated by the code; this
theorem evaluates the code at the failing input. -/
theorem C1_code_behavior :
    _parse_dns_plugin_config "pdns_token" = [("pdns_token", "")] ∧
    dictLookup (_parse_dns_plugin_config "pdns_token") "pdns_token" = some "" :=
  ⟨by decide, by decide⟩

/-- C4 counterexample: a credential block composed only of well-formed lines
and one blank line (which the claim permits) translates to a mapping with a
third entry, keyed by the empty string, in addition to the two entries for
the unique trimmed keys a and b — so the mapping does not contain exactly
one entry per unique trimmed key of the well-formed lines. -/
theorem C4_counterexample :
    (∀ l ∈ pyLines "a = 1\n\nb = 2", wellFormedLine l = true ∨ l = "") ∧
    _parse_dns_plugin_config "a = 1\n\nb = 2" = [("a", "1"), ("", ""), ("b", "2")] ∧
    ((_parse_dns_plugin_config "a = 1\n\nb = 2").map Prod.fst).length = 3 :=
  ⟨by decide, by decide, by decide⟩

/-- C4 (amended): for every credential block composed only of well-formed
key = value lines and containing no blank lines, the translated mapping has
no duplicate keys, its keys are exactly the trimmed keys of the lines, and
the looked-up value of each key is the trimmed value of the last line
carrying that key (last occurrence wins). -/
theorem C4_amended_holds (s : String)
    (hwf : ∀ l ∈ pyLines s, wellFormedLine l = true) :
    ((_parse_dns_plugin_config s).map Prod.fst).Nodup ∧
    (∀ k, k ∈ (_parse_dns_plugin_config s).map Prod.fst ↔
      ∃ l ∈ pyLines s, lineKey l = k) ∧
    (∀ k, dictLookup (_parse_dns_plugin_config s) k = lastVal (pyLines s) k) := by
  refine ⟨parseLines_nodup_keys _ _ (by simp), ?_, ?_⟩
  · intro k
    unfold _parse_dns_plugin_config
    rw [parseLines_mem_keys]
    simp
  · intro k
    unfold _parse_dns_plugin_config
    rw [parseLines_lookup]
    cases lastVal (pyLines s) k <;> rfl

/-- C4 witness: a concrete well-formed block with a duplicate key, run
through the amended theorem. -/
theorem C4_witness :
    (∀ l ∈ pyLines "a = 1\nb = 2\na = 3", wellFormedLine l = true) ∧
    dictLookup (_parse_dns_plugin_config "a = 1\nb = 2\na = 3") "a" =
      lastVal (pyLines "a = 1\nb = 2\na = 3") "a" :=
  ⟨by decide, (C4_amended_holds "a = 1\nb = 2\na = 3" (by decide)).2.2 "a"⟩

/-- C5 counterexample: blank lines are not ignored. Adding one interior
blank line to a block adds the entry mapping the empty key to the empty
value, an entry the same block without the blank line does not have. -/
theorem C5_counterexample :
    ("", "") ∈ _parse_dns_plugin_config "a = 1\n\nb = 2" ∧
    ("", "") ∉ _parse_dns_plugin_config "a = 1\nb = 2" :=
  ⟨by decide, by decide⟩

/-- C5 (amended): a blank line is parsed like any other line — because the
malformed-line RuntimeError is never raised — so whenever the split block
contains a line that strips to nothing, the translated mapping carries an
entry for the empty key. -/
theorem C5_amended_holds (s : String)
    (h : ∃ l ∈ pyLines s, stripChars l.data = []) :
    "" ∈ (_parse_dns_plugin_config s).map Prod.fst := by
  obtain ⟨l, hl, hblank⟩ := h
  unfold _parse_dns_plugin_config
  rw [parseLines_mem_keys]
  refine Or.inl ⟨l, hl, ?_⟩
  unfold lineKey
  rw [hblank]
  rfl

/-- C5 witness: the amended theorem applied to a concrete block with an
interior blank line. -/
theorem C5_witness :
    (∃ l ∈ pyLines "a = 1\n\nb = 2", stripChars l.data = ([] : List Char)) ∧
    "" ∈ (_parse_dns_plugin_config "a = 1\n\nb = 2").map Prod.fst :=
  ⟨by decide, C5_amended_holds "a = 1\n\nb = 2" (by decide)⟩

/-- C3: backend construction succeeds exactly when the acmesh section is
present, the resolved binary path is executable, the resolved home path
exists, and the dns_plugin and dns_plugin_config settings are present and
non-empty; otherwise init raises, so no backend value exists at all. -/
theorem C3_iff_valid (fs : FileSystem) (config : Config) :
    exceptIsOk (AcmeSHBackend.init fs config) = true ↔
      ∃ sect, lookupSect config "acmesh" = some sect ∧
        fs.executable (binaryPath sect) = true ∧
        fs.pathExists (homePath sect) = true ∧
        (sectGet sect "dns_plugin").getD "" ≠ "" ∧
        (sectGet sect "dns_plugin_config").getD "" ≠ "" := by
  cases h : lookupSect config "acmesh" with
  | none => simp [AcmeSHBackend.init, h, exceptIsOk]
  | some sect =>
    simp only [AcmeSHBackend.init, h]
    constructor
    · intro hok
      by_cases h1 : fs.executable (binaryPath sect) = false
      · rw [if_pos h1] at hok
        exact absurd hok (by simp [exceptIsOk])
      · by_cases h2 : fs.pathExists (homePath sect) = false
        · rw [if_neg h1, if_pos h2] at hok
          exact absurd hok (by simp [exceptIsOk])
        · by_cases h3 : (sectGet sect "dns_plugin").getD "" = ""
          · rw [if_neg h1, if_neg h2, if_pos h3] at hok
            exact absurd hok (by simp [exceptIsOk])
          · by_cases h4 : (sectGet sect "dns_plugin_config").getD "" = ""
            · rw [if_neg h1, if_neg h2, if_neg h3, if_pos h4] at hok
              exact absurd hok (by simp [exceptIsOk])
            · exact ⟨sect, rfl,
                Or.resolve_right (Bool.eq_false_or_eq_true _) h1,
                Or.resolve_right (Bool.eq_false_or_eq_true _) h2,
                h3, h4⟩
    · rintro ⟨s', hs', e1, e2, e3, e4⟩
      obtain rfl : sect = s' := by
        injection hs'
      have n1 : ¬ fs.executable (binaryPath sect) = false := by
        rw [e1]; decide
      have n2 : ¬ fs.pathExists (homePath sect) = false := by
        rw [e2]; decide
      rw [if_neg n1, if_neg n2, if_neg e3, if_neg e4]
      rfl

/-- C2: the environment handed to subprocess.run is exactly the translated
credential dict — the env keyword replaces the inherited process
environment, it is not merged over it: the inherited PATH entry is absent
from what the child receives, although the spec-modelled merge would keep
it. The claim that the entries are added to the inherited environment is
violated by the code; this theorem evaluates the code at the failing
input. -/
theorem C2_code_behavior :
    (signInvocation b2 baseEnv2 "/tmp/serles-acmeshxyz/csr.pem"
        (fullchainPath b2 "example.com")).env = [("pdns_token", "x")] ∧
    "PATH" ∉ ((signInvocation b2 baseEnv2 "/tmp/serles-acmeshxyz/csr.pem"
        (fullchainPath b2 "example.com")).env).map Prod.fst ∧
    "PATH" ∈ (mergedEnvSpec baseEnv2
        (_parse_dns_plugin_config b2.dns_plugin_config)).map Prod.fst :=
  ⟨by decide, by decide, by decide⟩

/-- C6: when the child exits with code 2, sign does not treat it as an
error: it reads the certificate file at
home/certificates/subjectAltNames[0].pem and returns its full contents
paired with no error. -/
theorem C6_holds (b : AcmeSHBackend) (w : World)
    (csr subjectDN email san0 : String) (rest : List String) (contents : String)
    (hstr : isStrArg b.dns_sleep_time = true)
    (h2 : w.proc.returncode = 2)
    (hfile : fsRead w.files (fullchainPath b san0) = some contents) :
    sign b w csr subjectDN (san0 :: rest) email = .ok (some contents, none) := by
  have hall := signCmd_all_str b (w.tmpdir ++ "/csr.pem") (fullchainPath b san0) hstr
  simp only [sign]
  rw [hall, if_neg (by decide : ¬(true = false)), if_pos h2]
  unfold readFullchain
  rw [hfile]

/-- C6 witness: a concrete exit-code-2 call returning the existing
certificate. -/
theorem C6_witness :
    sign b6 w6 "CSR" "CN=example.com" ["example.com"] "admin@example.com" =
      .ok (some "PEMDATA", none) :=
  C6_holds b6 w6 "CSR" "CN=example.com" "admin@example.com" "example.com" []
    "PEMDATA" rfl rfl rfl

/-- C7: when the child exits with a non-zero code other than 2, sign returns
the pair (no certificate, error message), and the message contains both the
exit code and the full captured combined output as substrings. -/
theorem C7_holds (b : AcmeSHBackend) (w : World)
    (csr subjectDN email san0 : String) (rest : List String)
    (hstr : isStrArg b.dns_sleep_time = true)
    (h0 : w.proc.returncode ≠ 0) (h2 : w.proc.returncode ≠ 2) :
    ∃ msg, sign b w csr subjectDN (san0 :: rest) email = .ok (none, some msg) ∧
      strContains msg (toString w.proc.returncode) ∧
      strContains msg w.proc.output := by
  have hall := signCmd_all_str b (w.tmpdir ++ "/csr.pem") (fullchainPath b san0) hstr
  refine ⟨"acme.sh exited with error " ++ toString w.proc.returncode ++
      " and output:\n" ++ w.proc.output, ?_, ?_, ?_⟩
  · simp only [sign]
    rw [hall, if_neg (by decide : ¬(true = false)), if_neg h2, if_pos h0]
  · exact ⟨"acme.sh exited with error ", " and output:\n" ++ w.proc.output,
      strAppend_assoc _ _ _⟩
  · exact ⟨"acme.sh exited with error " ++ toString w.proc.returncode ++
      " and output:\n", "", (strAppend_empty _).symm⟩

/-- C7 witness: exit code 5 with captured output DNS record not found gives
a message containing the digit 5 and that output. -/
theorem C7_witness :
    ∃ msg, sign b7 w7 "CSR" "CN=example.com" ["example.com"] "admin@example.com" =
        .ok (none, some msg) ∧
      strContains msg "5" ∧ strContains msg "DNS record not found" :=
  C7_holds b7 w7 "CSR" "CN=example.com" "admin@example.com" "example.com" []
    rfl (by decide) (by decide)

/-- C9: construction without dns_sleep_time and debug_mode applies the
defaults — the Python int 300 and bool False — but no type coercion is
performed: the int 300 is placed into the argv list as-is, and the
subsequent signing call raises TypeError inside subprocess.run instead of
passing the propagation sleep as the string 300. The coercion half of the
claim is violated by the code; this theorem evaluates the code at the
failing input. -/
theorem C9_code_behavior :
    AcmeSHBackend.init fs9 config9 = .ok b9 ∧
    b9.dns_sleep_time = PyVal.int 300 ∧
    b9.debug_mode = PyVal.bool false ∧
    PyVal.int 300 ∈ signCmd b9 (w9.tmpdir ++ "/csr.pem") (fullchainPath b9 "example.com") ∧
    sign b9 w9 "CSR" "CN=example.com" ["example.com"] "admin@example.com" =
      .error (PyExc.typeError "expected str, bytes or os.PathLike object, not int") :=
  ⟨rfl, rfl, rfl, by decide, rfl⟩

/-- C10: when the child exits with code 0 or 2 but the computed certificate
path cannot be opened, sign raises FileNotFoundError — the caller gets
neither element of the documented result pair. -/
theorem C10_holds (b : AcmeSHBackend) (w : World)
    (csr subjectDN email san0 : String) (rest : List String)
    (hstr : isStrArg b.dns_sleep_time = true)
    (hrc : w.proc.returncode = 0 ∨ w.proc.returncode = 2)
    (hfile : fsRead w.files (fullchainPath b san0) = none) :
    sign b w csr subjectDN (san0 :: rest) email =
      .error (PyExc.fileNotFound (fullchainPath b san0)) := by
  have hall := signCmd_all_str b (w.tmpdir ++ "/csr.pem") (fullchainPath b san0) hstr
  simp only [sign]
  rw [hall, if_neg (by decide : ¬(true = false))]
  rcases hrc with h0 | h2
  · have hn2 : ¬ w.proc.returncode = 2 := by rw [h0]; decide
    have hn0 : ¬ w.proc.returncode ≠ 0 := fun hne => hne h0
    rw [if_neg hn2, if_neg hn0]
    unfold readFullchain
    rw [hfile]
  · rw [if_pos h2]
    unfold readFullchain
    rw [hfile]

/-- C10 witness: exit code 0 with no certificate file raises
FileNotFoundError for the computed path. -/
theorem C10_witness :
    sign b10 w10 "CSR" "CN=example.com" ["example.com"] "admin@example.com" =
      .error (PyExc.fileNotFound (fullchainPath b10 "example.com")) :=
  C10_holds b10 w10 "CSR" "CN=example.com" "admin@example.com" "example.com" []
    rfl (Or.inl rfl) rfl

end AcmeSH
